import Mathlib

/-!
Verification of the suiClient-Error-Decoder repository (src/index.ts,
class SuiClientErrorDecoder).  The TypeScript source is shallowly embedded:
JavaScript objects used as string/number keyed maps become ordered
association lists with right-biased spread merge, the regular expressions of
the source are transcribed into a small regex AST together with a
backtracking matcher that follows JavaScript semantics (leftmost match,
greedy/lazy quantifiers, left-preferring alternation, word boundaries,
case-insensitive flag), and code paths that can raise JavaScript exceptions
return a `JsResult`.
-/

namespace SuiDecoder

/-- Result of a JavaScript computation: a value, or a raised exception. -/
inductive JsResult (α : Type) where
  | ok (value : α)
  | thrown
deriving DecidableEq, Repr

/-- A JavaScript object used as a map: an insertion-ordered association list.
`{...a, ...b}` keeps the key order of `a` (values of `b` win) followed by the
new keys of `b`. -/
abbrev Obj (κ : Type) := List (κ × String)

/-- Key lookup (`o[k]`), first matching key wins; keys are unique in objects
built by the embedded operations. -/
def lookupObj {κ : Type} [DecidableEq κ] : Obj κ → κ → Option String
  | [], _ => none
  | (k, v) :: rest, key => if k = key then some v else lookupObj rest key

/-- The JavaScript `in` operator: key presence regardless of the value. -/
def hasKey {κ : Type} [DecidableEq κ] (o : Obj κ) (k : κ) : Bool :=
  (lookupObj o k).isSome

/-- The `{...a` half of a spread: the entries of `a` in order, values
overridden by `b` where `b` has the key. -/
def updateVals {κ : Type} [DecidableEq κ] : Obj κ → Obj κ → Obj κ
  | [], _ => []
  | (k, v) :: rest, b => (k, (lookupObj b k).getD v) :: updateVals rest b

/-- The `...b}` half of a spread: the entries of `b` whose key is not in
`a`, in order. -/
def newEntries {κ : Type} [DecidableEq κ] (a : Obj κ) : Obj κ → Obj κ
  | [] => []
  | (k, v) :: rest =>
    if hasKey a k then newEntries a rest else (k, v) :: newEntries a rest

/-- JavaScript object spread `{...a, ...b}` (right-biased union, insertion
order preserved). -/
def mergeObj {κ : Type} [DecidableEq κ] (a b : Obj κ) : Obj κ :=
  updateVals a b ++ newEntries a b

/-- Truthiness of `o[k]` for a string-valued lookup: `undefined` and the
empty string are falsy. -/
def jsTruthy (o : Option String) : Bool :=
  !((o.getD "") == "")

/-- ASCII decimal digit, the JavaScript regex class `\d`. -/
def isDigitChar (c : Char) : Bool := ('0' ≤ c && c ≤ '9')

/-- JavaScript regex class `\s` (restricted to the ASCII whitespace that can
occur in the strings of this development). -/
def isSpaceChar (c : Char) : Bool :=
  c == ' ' || c == '\t' || c == '\n' || c == '\r' || c == '\x0b' || c == '\x0c'

/-- JavaScript regex word character `[A-Za-z0-9_]`, used by `\b` and `\w`. -/
def isWordChar (c : Char) : Bool :=
  ('a' ≤ c && c ≤ 'z') || ('A' ≤ c && c ≤ 'Z') || isDigitChar c || c == '_'

/-- ASCII lower-casing, used for the `i` regex flag. -/
def lowerChar (c : Char) : Char :=
  if 'A' ≤ c && c ≤ 'Z' then Char.ofNat (c.toNat + 32) else c

/-- Character equality under an optional case-insensitive flag. -/
def charEq (ci : Bool) (a c : Char) : Bool :=
  if ci then lowerChar a == lowerChar c else a == c

/-- Single-character matchers of the JavaScript regexes of the source:
a literal, the dot, and a (possibly negated) character class assembled from
literal members and the `\d`/`\s`/`\w` shorthands. -/
inductive CC where
  | lit (c : Char)
  | anyc
  | cls (neg : Bool) (lits : List Char) (d s w : Bool)
deriving DecidableEq, Repr

/-- Does character `c` match the class, honouring the `i` flag. -/
def ccTest (ci : Bool) : CC → Char → Bool
  | .lit a, c => charEq ci a c
  | .anyc, c => !(c == '\n' || c == '\r')
  | .cls neg lits d s w, c =>
    let base := lits.any (fun a => charEq ci a c)
      || (d && isDigitChar c) || (s && isSpaceChar c) || (w && isWordChar c)
    if neg then !base else base

/-- Regex AST covering the constructs appearing in the source: literals,
classes, concatenation, alternation, greedy and lazy star, optional,
a capture group, and the word-boundary assertion `\b`. -/
inductive Re where
  | eps
  | ch (p : CC)
  | seq (a b : Re)
  | alt (a b : Re)
  | star (greedy : Bool) (a : Re)
  | opt (a : Re)
  | grp (a : Re)
  | wb
deriving DecidableEq, Repr

/-- Syntactic size, used to compute a sufficient fuel bound. -/
def reSize : Re → Nat
  | .eps => 1
  | .ch _ => 1
  | .seq a b => reSize a + reSize b + 1
  | .alt a b => reSize a + reSize b + 1
  | .star _ a => reSize a + 1
  | .opt a => reSize a + 1
  | .grp a => reSize a + 1
  | .wb => 1

/-- Backtracking matcher in continuation-passing style.  `prev` is the
character before the current position (for `\b`), `cap` the text captured so
far by the first capture group (JavaScript `match[1]`; the regexes of the
source have at most one group, matched at most once on any path).  The fuel
only bounds the recursion depth; `matchFuel` below is always sufficient for
the patterns and strings of this development, mirroring the terminating
JavaScript engine. -/
def reM (ci : Bool) : Nat → Re → Option Char → List Char → Option (List Char) →
    (Option Char → List Char → Option (List Char) → Option (Option (List Char))) →
    Option (Option (List Char))
  | 0, _, _, _, _, _ => none
  | fuel + 1, re, prev, s, cap, k =>
    match re with
    | .eps => k prev s cap
    | .ch p =>
      match s with
      | [] => none
      | c :: rest => if ccTest ci p c then k (some c) rest cap else none
    | .seq a b =>
      reM ci fuel a prev s cap (fun p2 s2 c2 => reM ci fuel b p2 s2 c2 k)
    | .alt a b =>
      match reM ci fuel a prev s cap k with
      | some r => some r
      | none => reM ci fuel b prev s cap k
    | .opt a =>
      match reM ci fuel a prev s cap k with
      | some r => some r
      | none => k prev s cap
    | .star greedy a =>
      if greedy then
        match reM ci fuel a prev s cap (fun p2 s2 c2 =>
            if s2.length < s.length then reM ci fuel (.star true a) p2 s2 c2 k
            else none) with
        | some r => some r
        | none => k prev s cap
      else
        match k prev s cap with
        | some r => some r
        | none =>
          reM ci fuel a prev s cap (fun p2 s2 c2 =>
            if s2.length < s.length then reM ci fuel (.star false a) p2 s2 c2 k
            else none)
    | .grp a =>
      reM ci fuel a prev s cap (fun p2 s2 _ =>
        k p2 s2 (some (s.take (s.length - s2.length))))
    | .wb =>
      let l := match prev with | some c => isWordChar c | none => false
      let r := match s with | c :: _ => isWordChar c | [] => false
      if l != r then k prev s cap else none

/-- Fuel sufficient for matching `re` against a string of length `n`. -/
def matchFuel (re : Re) (n : Nat) : Nat := (reSize re + 4) * (n + 4) + 16

/-- Try the match at each start position from left to right (JavaScript
`String.prototype.match` with a non-global regex). -/
def reSearchAux (ci : Bool) (re : Re) (fuel : Nat) :
    Option Char → List Char → Option (Option (List Char))
  | prev, [] => reM ci fuel re prev [] none (fun _ _ cap => some cap)
  | prev, c :: rest =>
    match reM ci fuel re prev (c :: rest) none (fun _ _ cap => some cap) with
    | some cap => some cap
    | none => reSearchAux ci re fuel (some c) rest

/-- `s.match(re)`: `none` when there is no match, otherwise the capture of
group 1 (`none` inside when the regex has no group). -/
def reSearch (ci : Bool) (re : Re) (s : String) : Option (Option (List Char)) :=
  reSearchAux ci re (matchFuel re s.length) none s.data

/-- `re.test(s)`. -/
def reTest (ci : Bool) (re : Re) (s : String) : Bool :=
  (reSearch ci re s).isSome

/-- Concatenation of a list of regexes. -/
def rcat : List Re → Re
  | [] => .eps
  | [r] => r
  | r :: rest => .seq r (rcat rest)

/-- A literal string regex. -/
def rstr (s : String) : Re :=
  rcat (s.data.map (fun c => .ch (.lit c)))

/-- `(\d+)` — the capture group shared by every code pattern. -/
def rdigits : Re := .grp (.seq (.ch (.cls false [] true false false))
  (.star true (.ch (.cls false [] true false false))))

/-- `\s*`. -/
def rspaces0 : Re := .star true (.ch (.cls false [] false true false))

/-- `\s+`. -/
def rspaces1 : Re := .seq (.ch (.cls false [] false true false)) rspaces0

/-- `.*` (greedy) over the dot class. -/
def rdotStar : Re := .star true (.ch .anyc)

/-- `.*?` (lazy). -/
def rdotStarLazy : Re := .star false (.ch .anyc)

/-- Decimal value of a digit capture, JavaScript `parseInt(match[1], 10)`
for a `\d+` capture. -/
def digitsVal (cs : List Char) : Nat :=
  cs.foldl (fun a c => a * 10 + (c.toNat - 48)) 0

/-- A code-extraction pattern: the regex together with its `i` flag. -/
structure CodePattern where
  ci : Bool
  re : Re
deriving Repr

/-- The ordered `patterns` array of `extractErrorCode` (src/index.ts),
one transcription per source regex, in source order. -/
def codePatterns : List CodePattern := [
  -- /MoveAbort\([^,)]*,\s*(\d+)\)/
  ⟨false, rcat [rstr "MoveAbort(", .star true (.ch (.cls true [',', ')'] false false false)),
    .ch (.lit ','), rspaces0, rdigits, .ch (.lit ')')]⟩,
  -- /MoveAbort\([^)]+\)\s*,?\s*(\d+)\)/
  ⟨false, rcat [rstr "MoveAbort(", .ch (.cls true [')'] false false false),
    .star true (.ch (.cls true [')'] false false false)), .ch (.lit ')'),
    rspaces0, .opt (.ch (.lit ',')), rspaces0, rdigits, .ch (.lit ')')]⟩,
  -- /MoveAbort.*?(\d+)\)/
  ⟨false, rcat [rstr "MoveAbort", rdotStarLazy, rdigits, .ch (.lit ')')]⟩,
  -- /}, (\d+)\) in command/
  ⟨false, rcat [rstr "\x7d, ", rdigits, rstr ") in command"]⟩,
  -- /abort_code:\s*(\d+)/i
  ⟨true, rcat [rstr "abort_code:", rspaces0, rdigits]⟩,
  -- /error_code:\s*(\d+)/i
  ⟨true, rcat [rstr "error_code:", rspaces0, rdigits]⟩,
  -- /CetusError\((\d+)\)/
  ⟨false, rcat [rstr "CetusError(", rdigits, rstr ")"]⟩,
  -- /PoolCreationError\((\d+)\)/
  ⟨false, rcat [rstr "PoolCreationError(", rdigits, rstr ")"]⟩,
  -- /InsufficientLiquidity\((\d+)\)/
  ⟨false, rcat [rstr "InsufficientLiquidity(", rdigits, rstr ")"]⟩,
  -- /LaunchpadError\((\d+)\)/
  ⟨false, rcat [rstr "LaunchpadError(", rdigits, rstr ")"]⟩,
  -- /Error\s*Code\s*(\d+)/i
  ⟨true, rcat [rstr "Error", rspaces0, rstr "Code", rspaces0, rdigits]⟩,
  -- /ErrorCode:?\s*(\d+)/i
  ⟨true, rcat [rstr "ErrorCode", .opt (.ch (.lit ':')), rspaces0, rdigits]⟩,
  -- /code[:\s]*(\d+)/i
  ⟨true, rcat [rstr "code", .star true (.ch (.cls false [':'] false true false)), rdigits]⟩,
  -- /error[:\s]*(\d+)/i
  ⟨true, rcat [rstr "error", .star true (.ch (.cls false [':'] false true false)), rdigits]⟩,
  -- /with\s+code\s+(\d+)/i
  ⟨true, rcat [rstr "with", rspaces1, rstr "code", rspaces1, rdigits]⟩,
  -- /error\s+(\d+)/i
  ⟨true, rcat [rstr "error", rspaces1, rdigits]⟩]

/-- Loop body of `extractErrorCode`: first pattern whose match has a truthy
group-1 capture wins.  A `\d+` capture always parses to a non-negative
integer, so the guard `!isNaN(code) && code >= 0` of the source always passes on
a truthy capture. -/
def extractErrorCodeAux : List CodePattern → String → Option Nat
  | [], _ => none
  | p :: rest, s =>
    match reSearch p.ci p.re s with
    | some (some cap) =>
      if !cap.isEmpty then some (digitsVal cap) else extractErrorCodeAux rest s
    | _ => extractErrorCodeAux rest s

/-- `SuiClientErrorDecoder.extractErrorCode` (src/index.ts). -/
def extractErrorCode (s : String) : Option Nat :=
  extractErrorCodeAux codePatterns s

/-- The four categories of `ParsedError["category"]`. -/
inductive Category where
  | move_abort
  | transaction
  | sui_system
  | unknown
deriving DecidableEq, Repr

/-- One entry of the `PATTERN_MATCHERS` array: regex (with its `i` flag),
category, message, optional `errorType`.  Every `message` in the source is a
plain (template) string, evaluated when the array is built in the
constructor; none is a function. -/
structure PatternRule where
  ci : Bool
  re : Re
  category : Category
  message : String
  errorType : Option String
deriving Repr

/-- Value interpolated by a template literal: a missing key renders as the
string `undefined`. -/
def tmpl (o : Option String) : String := o.getD "undefined"

/-- The `PATTERN_MATCHERS` array built in the constructor of
`SuiClientErrorDecoder` (src/index.ts).  `t` is `this.transactionErrors` at
construction time: the template-literal messages of the transaction-error
entries are evaluated once, here, and never again. -/
def mkPatternMatchers (t : Obj String) : List PatternRule := [
  -- System errors
  ⟨false, rstr "InsufficientGas", .sui_system,
    "Insufficient gas for transaction. Please increase gas budget.", none⟩,
  ⟨false, rstr "ObjectNotFound", .sui_system,
    "Required object not found. Please check object IDs.", none⟩,
  ⟨false, rstr "InvalidObjectOwner", .sui_system,
    "Invalid object ownership. Please verify permissions.", none⟩,
  ⟨false, rstr "PackageNotFound", .sui_system,
    "Smart contract package not found. Please check package deployment.", none⟩,
  ⟨false, rstr "TransactionExpired", .transaction,
    "Transaction expired. Please try again.", none⟩,
  ⟨false, rstr "InvalidSignature", .transaction,
    "Invalid transaction signature.", none⟩,
  ⟨true, rstr "Unexpected deserialization error", .sui_system,
    "Unexpected deserialization error", none⟩,
  -- Transaction errors (messages baked from the construction-time registry)
  ⟨true, rcat [rstr "insufficient", rdotStar, rstr "gas"], .transaction,
    "Transaction Error (INSUFFICIENT_GAS): " ++ tmpl (lookupObj t "INSUFFICIENT_GAS"),
    some "INSUFFICIENT_GAS"⟩,
  ⟨true, rcat [rstr "invalid", rdotStar, rstr "gas", rdotStar, rstr "object"], .transaction,
    "Transaction Error (INVALID_GAS_OBJECT): " ++ tmpl (lookupObj t "INVALID_GAS_OBJECT"),
    some "INVALID_GAS_OBJECT"⟩,
  ⟨true, rcat [rstr "object", rdotStar, rstr "too", rdotStar, rstr "big"], .transaction,
    "Transaction Error (OBJECT_TOO_BIG): " ++ tmpl (lookupObj t "OBJECT_TOO_BIG"),
    some "OBJECT_TOO_BIG"⟩,
  ⟨true, rcat [rstr "package", rdotStar, rstr "too", rdotStar, rstr "big"], .transaction,
    "Transaction Error (PACKAGE_TOO_BIG): " ++ tmpl (lookupObj t "PACKAGE_TOO_BIG"),
    some "PACKAGE_TOO_BIG"⟩,
  ⟨true, rcat [rstr "circular", rdotStar, rstr "ownership"], .transaction,
    "Transaction Error (CIRCULAR_OBJECT_OWNERSHIP): "
      ++ tmpl (lookupObj t "CIRCULAR_OBJECT_OWNERSHIP"),
    some "CIRCULAR_OBJECT_OWNERSHIP"⟩,
  ⟨true, rcat [rstr "insufficient", rdotStar, rstr "coin", rdotStar, rstr "balance"],
    .transaction,
    "Transaction Error (INSUFFICIENT_COIN_BALANCE): "
      ++ tmpl (lookupObj t "INSUFFICIENT_COIN_BALANCE"),
    some "INSUFFICIENT_COIN_BALANCE"⟩,
  ⟨true, rcat [rstr "function", rdotStar, rstr "not", rdotStar, rstr "found"], .transaction,
    "Transaction Error (FUNCTION_NOT_FOUND): " ++ tmpl (lookupObj t "FUNCTION_NOT_FOUND"),
    some "FUNCTION_NOT_FOUND"⟩,
  ⟨true, rcat [rstr "move", rdotStar, rstr "abort"], .transaction,
    "Transaction Error (MOVE_ABORT): " ++ tmpl (lookupObj t "MOVE_ABORT"),
    some "MOVE_ABORT"⟩,
  -- Named Move abort errors
  ⟨false, rstr "EInvalidTickRange", .move_abort,
    "Error: Invalid tick range for liquidity pool", none⟩,
  ⟨false, rstr "EInvalidLiquidity", .move_abort,
    "Error: Invalid liquidity amount", none⟩,
  ⟨false, rstr "EInvalidTickSpacing", .move_abort,
    "Error: Invalid tick spacing - must be 100, 500, or 3000", none⟩,
  ⟨false, rstr "ETickNotAligned", .move_abort,
    "Error: Tick not aligned with tick spacing", none⟩,
  ⟨false, rstr "EInsufficientLiquidity", .move_abort,
    "Error: Insufficient liquidity for pool creation", none⟩,
  ⟨false, rstr "EInvalidPrice", .move_abort,
    "Error: Invalid price for pool creation", none⟩,
  ⟨false, rstr "EInvalidPhase", .move_abort,
    "Error: Invalid phase for operation", none⟩,
  ⟨false, rstr "EUnauthorized", .move_abort,
    "Error: Unauthorized access", none⟩]

/-- Modelled from the spec: the file `defaultErrors.ts` (the static default
tables `DEFAULT_SUI_ERROR_CODES` and `TRANSACTION_ERROR_CODES`) is not under
src/; the spec says the built-in tables are static data whose exact contents
are out of design scope.  The entries below are the ones the test suite of
the repository pins (code/message pairs asserted by index.test.ts); the four
transaction-error messages not pinned by any test carry representative
placeholder text, and no claim depends on them. -/
def DEFAULT_SUI_ERROR_CODES : Obj Nat := [
  (1, "Invalid argument provided"),
  (7, "Insufficient balance or resources"),
  (1000, "Unknown verification error"),
  (1001, "Index out of bounds"),
  (1003, "Invalid signature token"),
  (1020, "Type mismatch"),
  (2000, "Unknown invariant violation error"),
  (2023, "Arithmetic overflow"),
  (3000, "Unknown binary error")]

/-- Modelled from the spec: the symbolic transaction-error table of the
missing `defaultErrors.ts`; messages pinned by the test suite where
available (see `DEFAULT_SUI_ERROR_CODES`). -/
def TRANSACTION_ERROR_CODES : Obj String := [
  ("INSUFFICIENT_GAS", "Insufficient gas."),
  ("INVALID_GAS_OBJECT", "Invalid gas object."),
  ("OBJECT_TOO_BIG", "Move object is larger than the maximum allowed size."),
  ("PACKAGE_TOO_BIG", "Package size exceeds the maximum allowed size."),
  ("CIRCULAR_OBJECT_OWNERSHIP", "Circular object ownership detected."),
  ("INSUFFICIENT_COIN_BALANCE", "Insufficient coin balance."),
  ("FUNCTION_NOT_FOUND", "Function not found."),
  ("MOVE_ABORT", "Move runtime abort.")]

/-- Behaviour of `error.toString` on an object input: the inherited default
(returning `"[object Object]"`), an own method returning a string, an own
method that throws, or no callable `toString` at all (a null-prototype
object, whose `String(error)` coercion also throws). -/
inductive TStr where
  | defaultTS
  | custom (s : String)
  | throws
  | absent
deriving DecidableEq, Repr

/-- The input values `parseError` can receive, by their behaviour observable
to `extractErrorString`: null, undefined, a string, an (integer) number, or
an object characterised by its string-typed `message` field (absent or
non-string fields are `none`), its `cause.message`, and its `toString`
behaviour.  A self-referential object is observationally one of the `vObj`
cases — `extractErrorString` never walks arbitrary fields, so the cycle is
invisible to it; an array `[]` behaves as `vObj none none (.custom "")`. -/
inductive ErrorValue where
  | vNull
  | vUndefined
  | vStr (s : String)
  | vNum (n : Int)
  | vObj (message : Option String) (causeMessage : Option String) (toStr : TStr)
deriving DecidableEq, Repr

/-- Fuel-based decimal rendering of a natural number. -/
def natStrAux : Nat → Nat → List Char → List Char
  | 0, _, acc => acc
  | fuel + 1, n, acc =>
    let d := Char.ofNat (48 + n % 10)
    if n < 10 then d :: acc else natStrAux fuel (n / 10) (d :: acc)

/-- Decimal string of a natural number (JavaScript template interpolation of
an integer-valued number). -/
def natStr (n : Nat) : String := ⟨natStrAux (n + 1) n []⟩

/-- JavaScript `String(n)` for an integer-valued number. -/
def intStr (n : Int) : String :=
  if n < 0 then "-" ++ natStr n.natAbs else natStr n.natAbs

/-- `SuiClientErrorDecoder.extractErrorString` (src/index.ts).  The
`error.toString()` call is outside the try/catch, so a throwing `toString`
propagates (`.thrown`); only the final `String(error)` coercion is guarded,
degrading to the empty string. -/
def extractErrorString : ErrorValue → JsResult String
  | .vNull => .ok ""
  | .vUndefined => .ok ""
  | .vStr s => .ok s
  | .vNum n => .ok (intStr n)
  | .vObj message causeMessage toStr =>
    if jsTruthy message then .ok (message.getD "")
    else if jsTruthy causeMessage then .ok (causeMessage.getD "")
    else
      match toStr with
      | .defaultTS => .ok "[object Object]"
      | .custom s => .ok s
      | .throws => .thrown
      | .absent => .ok ""

/-- Is the first character list an initial segment of the second. -/
def listStarts : List Char → List Char → Bool
  | [], _ => true
  | _ :: _, [] => false
  | p :: ps, c :: cs => p == c && listStarts ps cs

/-- Does `s` contain `p` as a contiguous run. -/
def listHas (p : List Char) : List Char → Bool
  | [] => p.isEmpty
  | c :: rest => listStarts p (c :: rest) || listHas p rest

/-- JavaScript `s.includes(pat)`. -/
def strContains (s pat : String) : Bool := listHas pat.data s.data

def categorizeError (errorCode : Nat) (errorString : String) : Category :=
  if 1000 ≤ errorCode && errorCode ≤ 1999 then .move_abort
  else if 2000 ≤ errorCode && errorCode ≤ 2999 then .sui_system
  else if 3000 ≤ errorCode then .sui_system
  else if 1 ≤ errorCode && errorCode ≤ 999 then .move_abort
  else if strContains errorString "Transaction" || strContains errorString "Signature" then
    .transaction
  else .move_abort

/-!
`findPatternMatch` builds `new RegExp("\\b" + errorType + "\\b")` from each
registered symbolic type: regex construction can throw a `SyntaxError` for a
key that is not valid regex source.  The fueled recursive-descent parser
below accepts the JavaScript regex subset those spliced sources can form and
returns `none` on invalid source (unbalanced group, unclosed class, dangling
quantifier, trailing backslash), modelling the thrown `SyntaxError`.
-/

/-- Parse a character-class body (after `[` and an optional `^`) up to `]`:
accumulated literal members plus the `\d`/`\s`/`\w` shorthand flags.
Returns the members and the rest of the input.  (Range syntax is treated as
literal members; no key of the repository uses classes at all.) -/
def parseClsBody : Nat → List Char → List Char → Bool → Bool → Bool →
    Option ((List Char × Bool × Bool × Bool) × List Char)
  | 0, _, _, _, _, _ => none
  | _ + 1, [], _, _, _, _ => none
  | _ + 1, ']' :: rest, lits, d, s, w => some ((lits, d, s, w), rest)
  | fuel + 1, '\\' :: e :: rest, lits, d, s, w =>
    if e == 'd' then parseClsBody fuel rest lits true s w
    else if e == 's' then parseClsBody fuel rest lits d true w
    else if e == 'w' then parseClsBody fuel rest lits d s true
    else parseClsBody fuel rest (e :: lits) d s w
  | fuel + 1, c :: rest, lits, d, s, w => parseClsBody fuel rest (c :: lits) d s w

/-- Apply a postfix quantifier, if present, to a parsed atom. -/
def applyQuant (r : Re) : List Char → Re × List Char
  | '*' :: '?' :: rest => (.star false r, rest)
  | '*' :: rest => (.star true r, rest)
  | '+' :: '?' :: rest => (.seq r (.star false r), rest)
  | '+' :: rest => (.seq r (.star true r), rest)
  | '?' :: rest => (.opt r, rest)
  | cs => (r, cs)

/-- Recursive-descent parser for the regex subset; `mode 0` parses an
alternation, `mode 1` a concatenation, `mode 2` a single atom. -/
def parseR : Nat → Nat → List Char → Option (Re × List Char)
  | 0, _, _ => none
  | fuel + 1, 0, cs =>
    match parseR fuel 1 cs with
    | none => none
    | some (r, rest) =>
      match rest with
      | '|' :: rest2 =>
        match parseR fuel 0 rest2 with
        | some (r2, rest3) => some (.alt r r2, rest3)
        | none => none
      | _ => some (r, rest)
  | fuel + 1, 1, cs =>
    match cs with
    | [] => some (.eps, [])
    | ')' :: _ => some (.eps, cs)
    | '|' :: _ => some (.eps, cs)
    | _ =>
      match parseR fuel 2 cs with
      | none => none
      | some (a, rest) =>
        let aq := applyQuant a rest
        match parseR fuel 1 aq.2 with
        | none => none
        | some (b, rest3) => some (.seq aq.1 b, rest3)
  | fuel + 1, 2, cs =>
    match cs with
    | [] => none
    | '(' :: rest =>
      let g : Bool × List Char :=
        match rest with
        | '?' :: ':' :: r => (false, r)
        | _ => (true, rest)
      match parseR fuel 0 g.2 with
      | some (r, ')' :: rest3) => some ((if g.1 then .grp r else r), rest3)
      | _ => none
    | ')' :: _ => none
    | '|' :: _ => none
    | '*' :: _ => none
    | '+' :: _ => none
    | '?' :: _ => none
    | '[' :: '^' :: rest =>
      match parseClsBody (rest.length + 1) rest [] false false false with
      | some ((lits, d, s, w), rest2) => some (.ch (.cls true lits d s w), rest2)
      | none => none
    | '[' :: rest =>
      match parseClsBody (rest.length + 1) rest [] false false false with
      | some ((lits, d, s, w), rest2) => some (.ch (.cls false lits d s w), rest2)
      | none => none
    | '\\' :: e :: rest =>
      if e == 'b' then some (.wb, rest)
      else if e == 'd' then some (.ch (.cls false [] true false false), rest)
      else if e == 's' then some (.ch (.cls false [] false true false), rest)
      else if e == 'w' then some (.ch (.cls false [] false false true), rest)
      else if e == 'D' then some (.ch (.cls true [] true false false), rest)
      else if e == 'S' then some (.ch (.cls true [] false true false), rest)
      else if e == 'W' then some (.ch (.cls true [] false false true), rest)
      else if e == 'B' then none
      else some (.ch (.lit e), rest)
    | '\\' :: [] => none
    | '.' :: rest => some (.ch .anyc, rest)
    | c :: rest => some (.ch (.lit c), rest)
  | _ + 1, _ + 3, _ => none

/-- `new RegExp("\\b" + errorType + "\\b")`: compile the spliced source;
`none` models the thrown `SyntaxError`. -/
def compileKeyRegex (errorType : String) : Option Re :=
  let src := '\\' :: 'b' :: (errorType.data ++ ['\\', 'b'])
  match parseR (4 * src.length + 16) 0 src with
  | some (r, []) => some r
  | _ => none

/-- The fields of `ParsedError` (src/index.ts); `originalError` keeps the
original input value unchanged. -/
structure ParsedError where
  code : Option Nat
  errorType : Option String
  message : String
  isKnownError : Bool
  category : Category
  originalError : ErrorValue
deriving DecidableEq, Repr

/-- A `findPatternMatch` result: `Omit<ParsedError, "originalError">` with no
`code` field. -/
structure PMHit where
  errorType : Option String
  message : String
  isKnownError : Bool
  category : Category
deriving DecidableEq, Repr

/-- The state of a `SuiClientErrorDecoder` instance: the merged tables, the
caller-supplied custom tables, and the `PATTERN_MATCHERS` array (readonly,
built once in the constructor). -/
structure DecoderState where
  errorCodes : Obj Nat
  transactionErrors : Obj String
  customErrorCodes : Obj Nat
  customTransactionErrors : Obj String
  patternMatchers : List PatternRule

/-- `SuiErrorDecoderOptions` with its defaults. -/
structure SuiErrorDecoderOptions where
  customErrorCodes : Obj Nat := []
  customTransactionErrors : Obj String := []
  includeDefaults : Bool := true

/-- The constructor of `SuiClientErrorDecoder`: merge defaults with custom
tables (custom wins), then build `PATTERN_MATCHERS` from the merged
transaction-error table as it stands at construction time. -/
def mkDecoder (options : SuiErrorDecoderOptions) : DecoderState :=
  let errorCodes := if options.includeDefaults then
      mergeObj DEFAULT_SUI_ERROR_CODES options.customErrorCodes
    else options.customErrorCodes
  let transactionErrors := if options.includeDefaults then
      mergeObj TRANSACTION_ERROR_CODES options.customTransactionErrors
    else options.customTransactionErrors
  { errorCodes := errorCodes
    transactionErrors := transactionErrors
    customErrorCodes := options.customErrorCodes
    customTransactionErrors := options.customTransactionErrors
    patternMatchers := mkPatternMatchers transactionErrors }

/-- `addErrorCodes`: right-biased merge into both the custom and the merged
code table.  `PATTERN_MATCHERS` is untouched. -/
def addErrorCodes (st : DecoderState) (errorCodes : Obj Nat) : DecoderState :=
  { st with
    customErrorCodes := mergeObj st.customErrorCodes errorCodes
    errorCodes := mergeObj st.errorCodes errorCodes }

/-- `addTransactionErrors`: right-biased merge into both the custom and the
merged transaction-error table.  `PATTERN_MATCHERS` is untouched. -/
def addTransactionErrors (st : DecoderState) (transactionErrors : Obj String) :
    DecoderState :=
  { st with
    customTransactionErrors := mergeObj st.customTransactionErrors transactionErrors
    transactionErrors := mergeObj st.transactionErrors transactionErrors }

/-- `updateDefaultErrorCodes`: replace the defaults, custom entries win. -/
def updateDefaultErrorCodes (st : DecoderState) (defaultCodes : Obj Nat) :
    DecoderState :=
  { st with errorCodes := mergeObj defaultCodes st.customErrorCodes }

/-- `updateDefaultTransactionErrors`: replace the default transaction
errors, custom entries win.  `PATTERN_MATCHERS` is untouched. -/
def updateDefaultTransactionErrors (st : DecoderState)
    (defaultTransactionErrors : Obj String) : DecoderState :=
  { st with transactionErrors :=
      mergeObj defaultTransactionErrors st.customTransactionErrors }

/-- `getErrorCodes` (returns a shallow copy; in the pure model, the value). -/
def getErrorCodes (st : DecoderState) : Obj Nat := st.errorCodes

/-- `getTransactionErrors`. -/
def getTransactionErrors (st : DecoderState) : Obj String := st.transactionErrors

/-- `isKnownErrorCode`: `code in this.errorCodes` (key presence). -/
def isKnownErrorCode (st : DecoderState) (code : Nat) : Bool :=
  hasKey st.errorCodes code

/-- `isKnownTransactionError`. -/
def isKnownTransactionError (st : DecoderState) (errorType : String) : Bool :=
  hasKey st.transactionErrors errorType

/-- `getErrorMessage`: `this.errorCodes[code] || null` — an empty-string
message is falsy and yields `null`. -/
def getErrorMessage (st : DecoderState) (code : Nat) : Option String :=
  let m := lookupObj st.errorCodes code
  if jsTruthy m then m else none

/-- `getTransactionErrorMessage`: same truthiness behaviour. -/
def getTransactionErrorMessage (st : DecoderState) (errorType : String) :
    Option String :=
  let m := lookupObj st.transactionErrors errorType
  if jsTruthy m then m else none

/-- First loop of `findPatternMatch`: exact whole-token scan of the current
`transactionErrors` registry; each key is compiled to
`new RegExp("\\b" + key + "\\b")` — a key that is not valid regex source
throws there. -/
def scanTypes : Obj String → String → JsResult (Option PMHit)
  | [], _ => .ok none
  | (errorType, message) :: rest, s =>
    match compileKeyRegex errorType with
    | none => .thrown
    | some re =>
      if reTest false re s then
        .ok (some { errorType := some errorType
                    message := "Transaction Error (" ++ errorType ++ "): " ++ message
                    isKnownError := true
                    category := .transaction })
      else scanTypes rest s

/-- Second loop of `findPatternMatch`: the consolidated `PATTERN_MATCHERS`
array, first match wins. -/
def scanMatchers : List PatternRule → String → Option PMHit
  | [], _ => none
  | rule :: rest, s =>
    if reTest rule.ci rule.re s then
      some { errorType := rule.errorType
             message := rule.message
             isKnownError := true
             category := rule.category }
    else scanMatchers rest s

/-- `SuiClientErrorDecoder.findPatternMatch` (src/index.ts). -/
def findPatternMatch (st : DecoderState) (errorString : String) :
    JsResult (Option PMHit) :=
  match scanTypes st.transactionErrors errorString with
  | .thrown => .thrown
  | .ok (some hit) => .ok (some hit)
  | .ok none => .ok (scanMatchers st.patternMatchers errorString)

/-- `SuiClientErrorDecoder.parseError` (src/index.ts): normalize, extract a
numeric code first, otherwise pattern-match, otherwise the terminal
fallback. -/
def parseError (st : DecoderState) (error : ErrorValue) : JsResult ParsedError :=
  match extractErrorString error with
  | .thrown => .thrown
  | .ok errorString =>
    match extractErrorCode errorString with
    | some errorCode =>
      let message := lookupObj st.errorCodes errorCode
      if jsTruthy message then
        .ok { code := some errorCode
              errorType := none
              message := "Error Code " ++ natStr errorCode ++ ": " ++ message.getD ""
              isKnownError := true
              category := categorizeError errorCode errorString
              originalError := error }
      else
        .ok { code := some errorCode
              errorType := none
              message := "Move Error Code " ++ natStr errorCode ++ ": Unknown error occurred"
              isKnownError := false
              category := .move_abort
              originalError := error }
    | none =>
      match findPatternMatch st errorString with
      | .thrown => .thrown
      | .ok (some patternMatch) =>
        .ok { code := none
              errorType := patternMatch.errorType
              message := patternMatch.message
              isKnownError := patternMatch.isKnownError
              category := patternMatch.category
              originalError := error }
      | .ok none =>
        .ok { code := none
              errorType := none
              message := if errorString == "" then "An unexpected error occurred"
                         else errorString
              isKnownError := false
              category := .unknown
              originalError := error }

/-- `decodeError`. -/
def decodeError (st : DecoderState) (error : ErrorValue) : JsResult String :=
  match parseError st error with
  | .ok parsed => .ok parsed.message
  | .thrown => .thrown

/-- The module-level `defaultDecoder` instance. -/
def defaultDecoder : DecoderState := mkDecoder {}

/-- A decoder constructed with custom code `{1000: "A"}` (a code the
built-in defaults also define) and custom type `{MY_TYPE: "T"}`. -/
def overrideDecoder : DecoderState :=
  mkDecoder { customErrorCodes := [(1000, "A")],
              customTransactionErrors := [("MY_TYPE", "T")] }

/-- `overrideDecoder` after refreshing both default tables with entries
that collide with the custom ones. -/
def overrideDecoderRefreshed : DecoderState :=
  updateDefaultTransactionErrors
    (updateDefaultErrorCodes overrideDecoder [(1000, "B")]) [("MY_TYPE", "U")]

/-- The default decoder after re-registering INSUFFICIENT_GAS with a new
message via `addTransactionErrors`. -/
def regasDecoder : DecoderState :=
  addTransactionErrors defaultDecoder [("INSUFFICIENT_GAS", "Updated gas message")]

/-- A decoder with `includeDefaults: false` and no custom entries. -/
def noDefaultsDecoder : DecoderState := mkDecoder { includeDefaults := false }

/-- A decoder with `includeDefaults: false` and only `{9999: "x"}`. -/
def only9999Decoder : DecoderState :=
  mkDecoder { customErrorCodes := [(9999, "x")], includeDefaults := false }

/-- The default decoder extended with code 4242 mapped to the empty
string. -/
def emptyMsgDecoder : DecoderState :=
  mkDecoder { customErrorCodes := [(4242, "")] }

/-- A decoder whose only registered transaction-error type is the key
`BAD(`, which is not valid regex source once spliced into
`"\\b" + key + "\\b"`. -/
def badKeyDecoder : DecoderState :=
  mkDecoder { customTransactionErrors := [("BAD(", "boom")], includeDefaults := false }

/-- Do all keys of the registry compile as regex source (so that the exact
symbolic-type scan cannot throw)? -/
def typesCompile : Obj String → Bool
  | [] => true
  | (k, _) :: rest => (compileKeyRegex k).isSome && typesCompile rest

/-- Are all messages of a pattern-rule table nonempty? -/
def messagesNonempty : List PatternRule → Bool
  | [] => true
  | r :: rest => !(r.message == "") && messagesNonempty rest

/-! ### Lemmas about the embedded operations -/

theorem jsTruthy_none : jsTruthy (none : Option String) = false := rfl

theorem jsTruthy_some_of_ne {v : String} (h : v ≠ "") :
    jsTruthy (some v) = true := by
  simp [jsTruthy, h]

theorem string_append_ne_empty (a b : String) (h : a ≠ "") : a ++ b ≠ "" := by
  intro hab
  apply h
  have hd : a.data ++ b.data = [] := by
    have := congrArg String.data hab
    simpa [String.data_append] using this
  have ha : a.data = [] := (List.append_eq_nil.mp hd).1
  cases a
  simp only at ha
  simp [ha]

theorem newEntries_nil_left {κ : Type} [DecidableEq κ] (b : Obj κ) :
    newEntries ([] : Obj κ) b = b := by
  induction b with
  | nil => rfl
  | cons kv rest ih =>
    obtain ⟨k, v⟩ := kv
    simp [newEntries, hasKey, lookupObj, ih]

theorem lookupObj_append {κ : Type} [DecidableEq κ] (x y : Obj κ) (k : κ) :
    lookupObj (x ++ y) k =
      (match lookupObj x k with
       | some v => some v
       | none => lookupObj y k) := by
  induction x with
  | nil => simp [lookupObj]
  | cons kv rest ih =>
    obtain ⟨k0, v0⟩ := kv
    by_cases hk : k0 = k
    · simp [lookupObj, hk]
    · simp [lookupObj, hk, ih]

theorem lookupObj_newEntries_cons_ne {κ : Type} [DecidableEq κ]
    {k0 : κ} {v0 : String} {tl : Obj κ} {k : κ} (b : Obj κ) (hk : k0 ≠ k) :
    lookupObj (newEntries ((k0, v0) :: tl) b) k = lookupObj (newEntries tl b) k := by
  induction b with
  | nil => rfl
  | cons kv rest ih =>
    obtain ⟨kb, vb⟩ := kv
    by_cases hkb : k0 = kb
    · subst hkb
      have h1 : hasKey ((k0, v0) :: tl) k0 = true := by simp [hasKey, lookupObj]
      rw [newEntries, h1, if_pos rfl, ih]
      cases h2 : hasKey tl k0 with
      | true => rw [newEntries, h2, if_pos rfl]
      | false =>
        rw [newEntries, h2]
        simp only [Bool.false_eq_true, if_neg, lookupObj, if_neg hk]
    · have h1 : hasKey ((k0, v0) :: tl) kb = hasKey tl kb := by
        simp [hasKey, lookupObj, hkb]
      cases h2 : hasKey tl kb with
      | true =>
        rw [newEntries, h1, h2, if_pos rfl, ih, newEntries, h2, if_pos rfl]
      | false =>
        rw [newEntries, h1, h2]
        simp only [Bool.false_eq_true, if_neg]
        rw [newEntries, h2]
        simp only [Bool.false_eq_true, if_neg]
        by_cases hkbk : kb = k
        · simp [lookupObj, hkbk]
        · simp [lookupObj, hkbk, ih]

/-- Custom entries win on collision: a key present in `b` keeps its `b`
value in `{...a, ...b}`. -/
theorem lookupObj_mergeObj_of_right {κ : Type} [DecidableEq κ]
    {b : Obj κ} {k : κ} {v : String} (a : Obj κ)
    (h : lookupObj b k = some v) :
    lookupObj (mergeObj a b) k = some v := by
  induction a with
  | nil =>
    show lookupObj (updateVals [] b ++ newEntries [] b) k = some v
    rw [newEntries_nil_left]
    simpa [updateVals] using h
  | cons kv tl ih =>
    obtain ⟨k0, v0⟩ := kv
    by_cases hk : k0 = k
    · subst hk
      simp [mergeObj, updateVals, lookupObj, h]
    · show lookupObj ((k0, (lookupObj b k0).getD v0) ::
        (updateVals tl b ++ newEntries ((k0, v0) :: tl) b)) k = some v
      rw [lookupObj, if_neg hk, lookupObj_append, lookupObj_newEntries_cons_ne b hk]
      have ih2 : lookupObj (updateVals tl b ++ newEntries tl b) k = some v := ih
      rw [lookupObj_append] at ih2
      exact ih2

/-- The exact symbolic-type scan cannot throw when every key compiles, and
any hit it produces carries a nonempty message and `isKnownError = true`. -/
theorem scanTypes_ok (t : Obj String) (s : String) (h : typesCompile t = true) :
    ∃ o, scanTypes t s = .ok o ∧
      (∀ hit, o = some hit → hit.message ≠ "" ∧ hit.isKnownError = true) := by
  induction t with
  | nil => exact ⟨none, rfl, by intro hit hh; cases hh⟩
  | cons kv rest ih =>
    obtain ⟨k, m⟩ := kv
    have hc : (compileKeyRegex k).isSome = true := by
      have := h
      rw [typesCompile] at this
      exact (Bool.and_eq_true _ _).mp this |>.1
    have hr : typesCompile rest = true := by
      have := h
      rw [typesCompile] at this
      exact (Bool.and_eq_true _ _).mp this |>.2
    obtain ⟨re, hre⟩ := Option.isSome_iff_exists.mp hc
    by_cases ht : reTest false re s = true
    · refine ⟨some ⟨some k, "Transaction Error (" ++ k ++ "): " ++ m,
        true, .transaction⟩, ?_, ?_⟩
      · simp only [scanTypes, hre]
        rw [if_pos ht]
      · intro hit hh
        cases hh
        refine ⟨?_, rfl⟩
        exact string_append_ne_empty _ _
          (string_append_ne_empty _ _
            (string_append_ne_empty "Transaction Error (" _ (by decide)))
    · obtain ⟨o, ho, hmsg⟩ := ih hr
      refine ⟨o, ?_, hmsg⟩
      simp only [scanTypes, hre]
      rw [if_neg ht, ho]

/-- Any hit of the consolidated pattern scan keeps the rule message, so it
is nonempty when every rule message is, and carries `isKnownError = true`. -/
theorem scanMatchers_hit (pm : List PatternRule) (s : String)
    (h : messagesNonempty pm = true) :
    ∀ hit, scanMatchers pm s = some hit → hit.message ≠ "" ∧ hit.isKnownError = true := by
  induction pm with
  | nil => intro hit hh; cases hh
  | cons r rest ih =>
    intro hit hh
    have hm : (r.message == "") = false := by
      have := h
      rw [messagesNonempty] at this
      have := (Bool.and_eq_true _ _).mp this |>.1
      cases hb : (r.message == "") with
      | true => rw [hb] at this; cases this
      | false => rfl
    have hrest : messagesNonempty rest = true := by
      have := h
      rw [messagesNonempty] at this
      exact (Bool.and_eq_true _ _).mp this |>.2
    rw [scanMatchers] at hh
    by_cases ht : reTest r.ci r.re s = true
    · rw [if_pos ht] at hh
      cases hh
      exact ⟨by simpa using hm, rfl⟩
    · rw [if_neg ht] at hh
      exact ih hrest hit hh

/-! ### Claim theorems -/

/-- C1: whenever the normalized error string yields an extracted numeric
code (as the example input
"Transaction failed: INSUFFICIENT_GAS with MoveAbort code 1001" does, even
though it also carries a symbolic token), `parseError` returns the
numeric-code result, with `code` set and no `errorType`; the pattern
matcher is consulted only when no code is extracted — the result does not
depend on the transaction-error registry or the pattern table. -/
theorem parseError_code_extraction_first (st : DecoderState) (e : ErrorValue)
    (s : String) (c : Nat)
    (hs : extractErrorString e = .ok s) (hc : extractErrorCode s = some c) :
    (∃ r : ParsedError, parseError st e = .ok r ∧ r.code = some c ∧ r.errorType = none)
    ∧ ∀ st2 : DecoderState, st2.errorCodes = st.errorCodes →
        parseError st2 e = parseError st e := by
  constructor
  · simp only [parseError, hs, hc]
    by_cases h : jsTruthy (lookupObj st.errorCodes c) = true
    · rw [if_pos h]
      exact ⟨_, rfl, rfl, rfl⟩
    · rw [if_neg h]
      exact ⟨_, rfl, rfl, rfl⟩
  · intro st2 hst
    simp only [parseError, hs, hc, hst]

/-- C1 witness: the dual-shape example of the spec extracts code 1001, so the
default decoder returns the numeric-code result for it. -/
theorem parseError_code_extraction_first_witness :
    extractErrorCode "Transaction failed: INSUFFICIENT_GAS with MoveAbort code 1001"
      = some 1001
    ∧ ((∃ r : ParsedError,
          parseError defaultDecoder
            (.vStr "Transaction failed: INSUFFICIENT_GAS with MoveAbort code 1001")
            = .ok r ∧ r.code = some 1001 ∧ r.errorType = none)
       ∧ ∀ st2 : DecoderState, st2.errorCodes = defaultDecoder.errorCodes →
           parseError st2
             (.vStr "Transaction failed: INSUFFICIENT_GAS with MoveAbort code 1001")
           = parseError defaultDecoder
             (.vStr "Transaction failed: INSUFFICIENT_GAS with MoveAbort code 1001")) := by
  have h : extractErrorCode
      "Transaction failed: INSUFFICIENT_GAS with MoveAbort code 1001" = some 1001 := by
    decide
  exact ⟨h, parseError_code_extraction_first defaultDecoder _ _ 1001 rfl h⟩

/-- C2 counterexample: `parseError` is not total over all input values — an
object whose own `toString` method throws makes `parseError` itself throw,
because the `error.toString()` call in `extractErrorString` sits outside
the try/catch. -/
theorem parseError_throwing_toString_counterexample :
    parseError defaultDecoder (.vObj none none .throws) = .thrown := rfl

/-- C2 (amended): for every input value whose normalization returns
normally (which covers null, undefined, numbers, strings, arrays, plain and
self-referential objects — everything except an object whose own `toString`
throws) and every decoder state whose registry keys compile as regex source
and whose pattern-rule messages are nonempty (both true of any decoder
built from well-formed tables), `parseError` returns a well-formed record
whose `originalError` is the input unchanged and whose message is
nonempty. -/
theorem parseError_total_for_safe_inputs (st : DecoderState) (e : ErrorValue)
    (s : String)
    (he : extractErrorString e = .ok s)
    (hkeys : typesCompile st.transactionErrors = true)
    (hpm : messagesNonempty st.patternMatchers = true) :
    ∃ r : ParsedError, parseError st e = .ok r ∧ r.originalError = e ∧ r.message ≠ "" := by
  cases hc : extractErrorCode s with
  | some c =>
    simp only [parseError, he, hc]
    by_cases h : jsTruthy (lookupObj st.errorCodes c) = true
    · rw [if_pos h]
      refine ⟨_, rfl, rfl, ?_⟩
      exact string_append_ne_empty _ _
        (string_append_ne_empty _ _
          (string_append_ne_empty "Error Code " _ (by decide)))
    · rw [if_neg h]
      refine ⟨_, rfl, rfl, ?_⟩
      exact string_append_ne_empty _ _
        (string_append_ne_empty "Move Error Code " _ (by decide))
  | none =>
    obtain ⟨o, ho, hmsg⟩ := scanTypes_ok st.transactionErrors s hkeys
    cases o with
    | some hit =>
      simp only [parseError, he, hc, findPatternMatch, ho]
      exact ⟨_, rfl, rfl, (hmsg hit rfl).1⟩
    | none =>
      cases hm : scanMatchers st.patternMatchers s with
      | some hit =>
        simp only [parseError, he, hc, findPatternMatch, ho, hm]
        exact ⟨_, rfl, rfl, (scanMatchers_hit st.patternMatchers s hpm hit hm).1⟩
      | none =>
        simp only [parseError, he, hc, findPatternMatch, ho, hm]
        by_cases hs0 : (s == "") = true
        · rw [if_pos hs0]
          refine ⟨_, rfl, rfl, ?_⟩
          show "An unexpected error occurred" ≠ ""
          decide
        · rw [if_neg hs0]
          refine ⟨_, rfl, rfl, ?_⟩
          simpa using hs0

/-- C2 witness: a plain object `{}` normalizes to "[object Object]" and the
default decoder parses it without throwing, preserving the original. -/
theorem parseError_total_for_safe_inputs_witness :
    ∃ r : ParsedError,
      parseError defaultDecoder (.vObj none none .defaultTS) = .ok r
      ∧ r.originalError = .vObj none none .defaultTS ∧ r.message ≠ "" :=
  parseError_total_for_safe_inputs defaultDecoder _ "[object Object]" rfl
    (by decide) (by decide)

/-- C3: a custom entry supplied at construction is never erased or shadowed
by a later default refresh: after `updateDefaultErrorCodes` and
`updateDefaultTransactionErrors`, the merged tables, `getErrorMessage`,
`getErrorCodes`, `getTransactionErrorMessage` and `parseError` still see
the custom values. -/
theorem custom_entries_survive_default_refresh
    (cc : Obj Nat) (ct : Obj String) (dft : Obj Nat) (dftT : Obj String)
    (k : Nat) (v : String) (ty tv : String) (s : String)
    (st0 st2 : DecoderState)
    (h0 : st0 = mkDecoder { customErrorCodes := cc, customTransactionErrors := ct })
    (h2 : st2 = updateDefaultTransactionErrors (updateDefaultErrorCodes st0 dft) dftT)
    (hk : lookupObj cc k = some v) (hv : v ≠ "")
    (hty : lookupObj ct ty = some tv) (htv : tv ≠ "")
    (hs : extractErrorCode s = some k) :
    lookupObj st0.errorCodes k = some v
    ∧ getErrorMessage st2 k = some v
    ∧ lookupObj (getErrorCodes st2) k = some v
    ∧ getTransactionErrorMessage st2 ty = some tv
    ∧ parseError st2 (.vStr s) = .ok
        { code := some k, errorType := none,
          message := "Error Code " ++ natStr k ++ ": " ++ v,
          isKnownError := true, category := categorizeError k s,
          originalError := .vStr s } := by
  subst h2
  subst h0
  have hmerged : lookupObj (mergeObj dft cc) k = some v :=
    lookupObj_mergeObj_of_right dft hk
  have hTmerged : lookupObj (mergeObj dftT ct) ty = some tv :=
    lookupObj_mergeObj_of_right dftT hty
  refine ⟨?_, ?_, ?_, ?_, ?_⟩
  · exact lookupObj_mergeObj_of_right DEFAULT_SUI_ERROR_CODES hk
  · show getErrorMessage
      { errorCodes := mergeObj dft cc
        transactionErrors := mergeObj dftT ct
        customErrorCodes := cc
        customTransactionErrors := ct
        patternMatchers := mkPatternMatchers (mergeObj TRANSACTION_ERROR_CODES ct) } k = some v
    simp [getErrorMessage, hmerged, jsTruthy_some_of_ne hv]
  · show lookupObj (mergeObj dft cc) k = some v
    exact hmerged
  · show getTransactionErrorMessage
      { errorCodes := mergeObj dft cc
        transactionErrors := mergeObj dftT ct
        customErrorCodes := cc
        customTransactionErrors := ct
        patternMatchers := mkPatternMatchers (mergeObj TRANSACTION_ERROR_CODES ct) } ty = some tv
    simp [getTransactionErrorMessage, hTmerged, jsTruthy_some_of_ne htv]
  · have hec : (updateDefaultTransactionErrors (updateDefaultErrorCodes
        (mkDecoder { customErrorCodes := cc, customTransactionErrors := ct }) dft)
        dftT).errorCodes = mergeObj dft cc := rfl
    simp only [parseError, extractErrorString, hs, hec, hmerged]
    rw [if_pos (jsTruthy_some_of_ne hv)]
    simp

/-- C3 witness: custom `{1000: "A"}` (a code the built-in defaults also
define) survives refreshing the defaults to `{1000: "B"}`; the custom
transaction type survives its refresh likewise. -/
theorem custom_entries_survive_default_refresh_witness :
    hasKey DEFAULT_SUI_ERROR_CODES 1000 = true
    ∧ (lookupObj overrideDecoder.errorCodes 1000 = some "A"
       ∧ getErrorMessage overrideDecoderRefreshed 1000 = some "A"
       ∧ lookupObj (getErrorCodes overrideDecoderRefreshed) 1000 = some "A"
       ∧ getTransactionErrorMessage overrideDecoderRefreshed "MY_TYPE" = some "T"
       ∧ parseError overrideDecoderRefreshed (.vStr "Error Code 1000") = .ok
            { code := some 1000, errorType := none,
              message := "Error Code " ++ natStr 1000 ++ ": " ++ "A",
              isKnownError := true,
              category := categorizeError 1000 "Error Code 1000",
              originalError := .vStr "Error Code 1000" }) := by
  refine ⟨by decide, ?_⟩
  exact custom_entries_survive_default_refresh [(1000, "A")] [("MY_TYPE", "T")]
    [(1000, "B")] [("MY_TYPE", "U")] 1000 "A" "MY_TYPE" "T" "Error Code 1000"
    overrideDecoder overrideDecoderRefreshed rfl rfl
    (by decide) (by decide) (by decide) (by decide) (by decide)

/-- C4 counterexample: after `addTransactionErrors` re-registers
INSUFFICIENT_GAS as "Updated gas message", a content-pattern match
(`/insufficient.*gas/i`, no symbolic token present, no code, no earlier
rule) still reports the construction-time message "Insufficient gas." and
not a message built from the updated registry entry — the pattern messages
are not resolved at match time. -/
theorem dynamic_message_counterexample :
    decodeError regasDecoder (.vStr "Transaction failed due to insufficient gas budget")
      = .ok "Transaction Error (INSUFFICIENT_GAS): Insufficient gas."
    ∧ strContains "Transaction Error (INSUFFICIENT_GAS): Insufficient gas."
        "Updated gas message" = false := by
  exact ⟨by decide, by decide⟩

/-- C4 (amended): the `PATTERN_MATCHERS` table, including its
transaction-error messages, is fixed when the decoder is constructed;
neither `addTransactionErrors` nor `updateDefaultTransactionErrors`
changes it, so a subsequent content-pattern match reports the
construction-time registry message even though the registry itself (and
hence the exact symbolic-token scan and `getTransactionErrorMessage`)
already carries the updated message. -/
theorem pattern_messages_fixed_at_construction :
    (∀ (st : DecoderState) (u : Obj String),
        (addTransactionErrors st u).patternMatchers = st.patternMatchers
        ∧ (updateDefaultTransactionErrors st u).patternMatchers = st.patternMatchers)
    ∧ parseError regasDecoder (.vStr "Transaction failed due to insufficient gas budget")
        = .ok { code := none, errorType := some "INSUFFICIENT_GAS",
                message := "Transaction Error (INSUFFICIENT_GAS): Insufficient gas.",
                isKnownError := true, category := .transaction,
                originalError := .vStr "Transaction failed due to insufficient gas budget" }
    ∧ getTransactionErrorMessage regasDecoder "INSUFFICIENT_GAS"
        = some "Updated gas message" := by
  exact ⟨fun st u => ⟨rfl, rfl⟩, by decide, by decide⟩

/-- C5 counterexample: an unregistered code 2023 inside a recognized shape
is categorized `move_abort`, not `sui_system` — the unknown-code branch of
`parseError` forces `move_abort` and never consults the band-based
categorizer. -/
theorem band_categorization_counterexample :
    parseError noDefaultsDecoder (.vStr "Error Code 2023")
      = .ok { code := some 2023, errorType := none,
              message := "Move Error Code 2023: Unknown error occurred",
              isKnownError := false, category := .move_abort,
              originalError := .vStr "Error Code 2023" }
    ∧ Category.move_abort ≠ Category.sui_system := by
  exact ⟨by decide, by decide⟩

/-- C5 (amended): every extracted code that is not registered (with a
truthy message) categorizes as `move_abort`, regardless of its numeric
band; the band-based categorizer applies only to registered codes, so a
registered 2023 does categorize as `sui_system`, while unregistered 500
(and unregistered 2023, see the counterexample) yield `move_abort`. -/
theorem unregistered_code_always_move_abort
    (st : DecoderState) (s : String) (c : Nat)
    (h1 : extractErrorCode s = some c)
    (h2 : jsTruthy (lookupObj st.errorCodes c) = false) :
    (∃ r : ParsedError, parseError st (.vStr s) = .ok r ∧ r.category = .move_abort)
    ∧ categorizeError 2023 "" = .sui_system
    ∧ parseError defaultDecoder (.vStr "System error with code 2023: Arithmetic overflow")
        = .ok { code := some 2023, errorType := none,
                message := "Error Code 2023: Arithmetic overflow",
                isKnownError := true, category := .sui_system,
                originalError := .vStr "System error with code 2023: Arithmetic overflow" }
    ∧ parseError noDefaultsDecoder (.vStr "Error Code 500")
        = .ok { code := some 500, errorType := none,
                message := "Move Error Code 500: Unknown error occurred",
                isKnownError := false, category := .move_abort,
                originalError := .vStr "Error Code 500" } := by
  refine ⟨?_, by decide, by decide, by decide⟩
  simp only [parseError, extractErrorString, h1, h2]
  exact ⟨_, rfl, rfl⟩

/-- C5 witness: an unregistered code 2023 extracted from an
`abort_code:`-shaped string on a decoder with no registered codes. -/
theorem unregistered_code_always_move_abort_witness :
    (∃ r : ParsedError,
        parseError noDefaultsDecoder (.vStr "abort_code: 2023") = .ok r
        ∧ r.category = .move_abort)
    ∧ categorizeError 2023 "" = .sui_system
    ∧ parseError defaultDecoder (.vStr "System error with code 2023: Arithmetic overflow")
        = .ok { code := some 2023, errorType := none,
                message := "Error Code 2023: Arithmetic overflow",
                isKnownError := true, category := .sui_system,
                originalError := .vStr "System error with code 2023: Arithmetic overflow" }
    ∧ parseError noDefaultsDecoder (.vStr "Error Code 500")
        = .ok { code := some 500, errorType := none,
                message := "Move Error Code 500: Unknown error occurred",
                isKnownError := false, category := .move_abort,
                originalError := .vStr "Error Code 500" } :=
  unregistered_code_always_move_abort noDefaultsDecoder "abort_code: 2023" 2023
    (by decide) (by decide)

/-- C6: a negative number embedded in code-shaped text is never extracted:
on "Error with code -1000" the extractor returns none and `parseError`
reports no code with category `unknown`; and any extracted code is a
non-negative integer. -/
theorem negative_codes_never_extracted :
    extractErrorCode "Error with code -1000" = none
    ∧ parseError defaultDecoder (.vStr "Error with code -1000")
        = .ok { code := none, errorType := none,
                message := "Error with code -1000",
                isKnownError := false, category := .unknown,
                originalError := .vStr "Error with code -1000" }
    ∧ ∀ (s : String) (c : Nat), extractErrorCode s = some c → (0 : Int) ≤ (c : Int) := by
  refine ⟨by decide, by decide, ?_⟩
  intro s c _
  exact Int.natCast_nonneg c

/-- C6 witness: a concrete extraction, necessarily non-negative. -/
theorem negative_codes_never_extracted_witness :
    extractErrorCode "error 55" = some 55 ∧ (0 : Int) ≤ ((55 : Nat) : Int) := by
  have h : extractErrorCode "error 55" = some 55 := by decide
  exact ⟨h, negative_codes_never_extracted.2.2 "error 55" 55 h⟩

/-- C7: an extracted code `M` absent from the merged code table yields
`code = M`, `isKnownError = false`, `category = move_abort` and the
message "Move Error Code M: Unknown error occurred". -/
theorem unknown_code_parse_result (st : DecoderState) (e : ErrorValue)
    (s : String) (M : Nat)
    (he : extractErrorString e = .ok s)
    (h1 : extractErrorCode s = some M)
    (h2 : lookupObj st.errorCodes M = none) :
    parseError st e = .ok
      { code := some M, errorType := none,
        message := "Move Error Code " ++ natStr M ++ ": Unknown error occurred",
        isKnownError := false, category := .move_abort, originalError := e } := by
  simp only [parseError, he, h1, h2, jsTruthy_none]
  simp

/-- C7 witness: the default decoder on an unknown MoveAbort code. -/
theorem unknown_code_parse_result_witness :
    parseError defaultDecoder (.vStr "MoveAbort(address, 99999) in command 0")
      = .ok { code := some 99999, errorType := none,
              message := "Move Error Code " ++ natStr 99999 ++ ": Unknown error occurred",
              isKnownError := false, category := .move_abort,
              originalError := .vStr "MoveAbort(address, 99999) in command 0" } :=
  unknown_code_parse_result defaultDecoder _ _ 99999 rfl (by decide) (by decide)

/-- C8: with `includeDefaults: false` the merged tables are exactly the
custom tables — the built-ins are absent entirely: with only `{9999: "x"}`
supplied, `isKnownErrorCode 1000` is false and `isKnownErrorCode 9999` is
true, and the transaction table is empty as supplied. -/
theorem include_defaults_false_excludes_builtins :
    (∀ (cc : Obj Nat) (ct : Obj String),
        (mkDecoder { customErrorCodes := cc, customTransactionErrors := ct,
                     includeDefaults := false }).errorCodes = cc
        ∧ (mkDecoder { customErrorCodes := cc, customTransactionErrors := ct,
                       includeDefaults := false }).transactionErrors = ct)
    ∧ isKnownErrorCode only9999Decoder 1000 = false
    ∧ isKnownErrorCode only9999Decoder 9999 = true
    ∧ isKnownTransactionError only9999Decoder "INSUFFICIENT_GAS" = false
    ∧ getTransactionErrors only9999Decoder = [] := by
  exact ⟨fun cc ct => ⟨rfl, rfl⟩, by decide, by decide, by decide, by decide⟩

/-- C9: a code registered with the empty string diverges between the
"known" predicate (key presence: true) and the lookups used elsewhere
(truthiness: `getErrorMessage` yields none, and `parseError` takes the
unknown-code branch with "Move Error Code N: Unknown error occurred"). -/
theorem empty_message_known_lookup_divergence (st : DecoderState) (N : Nat)
    (s : String)
    (h : lookupObj st.errorCodes N = some "")
    (hs : extractErrorCode s = some N) :
    isKnownErrorCode st N = true
    ∧ getErrorMessage st N = none
    ∧ parseError st (.vStr s) = .ok
        { code := some N, errorType := none,
          message := "Move Error Code " ++ natStr N ++ ": Unknown error occurred",
          isKnownError := false, category := .move_abort,
          originalError := .vStr s } := by
  refine ⟨?_, ?_, ?_⟩
  · simp [isKnownErrorCode, hasKey, h]
  · simp [getErrorMessage, h, jsTruthy]
  · simp only [parseError, extractErrorString, hs, h]
    simp [jsTruthy]

/-- C9 witness: code 4242 registered as "" on top of the defaults. -/
theorem empty_message_known_lookup_divergence_witness :
    isKnownErrorCode emptyMsgDecoder 4242 = true
    ∧ getErrorMessage emptyMsgDecoder 4242 = none
    ∧ parseError emptyMsgDecoder (.vStr "Error Code 4242") = .ok
        { code := some 4242, errorType := none,
          message := "Move Error Code " ++ natStr 4242 ++ ": Unknown error occurred",
          isKnownError := false, category := .move_abort,
          originalError := .vStr "Error Code 4242" } :=
  empty_message_known_lookup_divergence emptyMsgDecoder 4242 "Error Code 4242"
    (by decide) (by decide)

/-- C10: a registered symbolic type whose key is not regex-safe (here
`BAD(`, an unbalanced group) makes `parseError` throw on every input that
reaches the exact symbolic-type scan, because the scan builds
`new RegExp("\\b" + key + "\\b")` from the raw key. -/
theorem regex_unsafe_type_key_throws (s : String)
    (h : extractErrorCode s = none) :
    parseError badKeyDecoder (.vStr s) = .thrown := by
  have hc : compileKeyRegex "BAD(" = none := by decide
  simp only [parseError, extractErrorString, h, findPatternMatch]
  have ht : badKeyDecoder.transactionErrors = [("BAD(", "boom")] := rfl
  rw [ht]
  simp [scanTypes, hc]

/-- C10 witness: a generic unmatched input reaches the scan and throws. -/
theorem regex_unsafe_type_key_throws_witness :
    parseError badKeyDecoder (.vStr "Some unmatched error") = .thrown :=
  regex_unsafe_type_key_throws "Some unmatched error" (by decide)

end SuiDecoder
